import Mathlib

/-!
Shallow embedding of `src/geocode_check.py` (Property Geocode Checker).

Python floats are modelled as exact rationals extended with the three
non-finite values (`PyFloat`); Python/JSON values flowing through the cache
and the provider response are modelled by `PyVal`.  Machine rounding of IEEE
doubles is not modelled: a decimal literal parses to the exact rational it
denotes.  Field `partial_match` of the source dataclass is called
`partMatch` here; all other names follow the source.
-/

set_option autoImplicit false

namespace GeocodeCheck

/-- Model of a Python `float` value: a finite rational, `inf`, `-inf` or `nan`. -/
inductive PyFloat where
  | finite (q : ℚ)
  | inf
  | neginf
  | nan
  deriving DecidableEq

/-- IEEE-style `<=` on Python floats: any comparison involving `nan` is false. -/
def pyLe : PyFloat → PyFloat → Bool
  | .nan, _ => false
  | _, .nan => false
  | .neginf, _ => true
  | .inf, .inf => true
  | .inf, _ => false
  | .finite _, .inf => true
  | .finite _, .neginf => false
  | .finite a, .finite b => decide (a ≤ b)

/-- IEEE-style `<` on Python floats: any comparison involving `nan` is false. -/
def pyLt : PyFloat → PyFloat → Bool
  | .nan, _ => false
  | _, .nan => false
  | .neginf, .neginf => false
  | .neginf, _ => true
  | .inf, _ => false
  | .finite _, .inf => true
  | .finite _, .neginf => false
  | .finite a, .finite b => decide (a < b)

/-- Model of a Python value as produced by `json.loads` / consumed by
`json.dump`: `None`, `bool`, `int`, `float`, `str`, `list`, `dict`.
Dicts are association lists looked up on the first matching key. -/
inductive PyVal where
  | none_
  | bool (b : Bool)
  | int (n : ℤ)
  | float (f : PyFloat)
  | str (s : String)
  | list (xs : List PyVal)
  | dict (fields : List (String × PyVal))

/-- First-match association-list lookup (Python dict access). -/
def lookupAssoc {α : Type} : List (String × α) → String → Option α
  | [], _ => none
  | (k, v) :: rest, key => if k = key then some v else lookupAssoc rest key

/-- Store/overwrite a key (Python dict assignment `d[k] = v`). -/
def upsertAssoc {α : Type} : List (String × α) → String → α → List (String × α)
  | [], key, v => [(key, v)]
  | (k, w) :: rest, key, v =>
    if k = key then (key, v) :: rest else (k, w) :: upsertAssoc rest key v

/-- `dict.get` on a `PyVal` (returns `none` when the value is not a dict). -/
def pyDictGet (v : PyVal) (key : String) : Option PyVal :=
  match v with
  | .dict fields => lookupAssoc fields key
  | _ => none

/-- Whitespace characters recognised by Python `str.strip()` / `str.split()`
(ASCII subset; exotic Unicode spaces are not modelled). -/
def pyIsSpaceChar (c : Char) : Bool :=
  c = ' ' || c = '\t' || c = '\n' || c = '\r' || c = '\x0b' || c = '\x0c'

/-- Python `str.strip()` on a character list. -/
def pyStripList (l : List Char) : List Char :=
  ((l.dropWhile pyIsSpaceChar).reverse.dropWhile pyIsSpaceChar).reverse

/-- Python `str.strip()`. -/
def pyStripStr (s : String) : String :=
  String.mk (pyStripList s.data)

/-- One step of splitting on whitespace, used right-to-left over the input. -/
def splitOnWsStep (c : Char) (acc : List (List Char)) : List (List Char) :=
  if pyIsSpaceChar c then [] :: acc
  else
    match acc with
    | [] => [[c]]
    | w :: ws => (c :: w) :: ws

/-- Split into (possibly empty) whitespace-separated segments. -/
def splitOnWs (l : List Char) : List (List Char) :=
  l.foldr splitOnWsStep [[]]

/-- Python `str.split()` with no argument: maximal runs of non-whitespace. -/
def pyWords (l : List Char) : List (List Char) :=
  (splitOnWs l).filter (fun w => !w.isEmpty)

/-- `_normalize_address` (line 48): `" ".join(address.strip().split())`. -/
def normalizeAddress (s : String) : String :=
  String.mk (List.intercalate [' '] (pyWords (pyStripList s.data)))

/-- ASCII upper-casing of one character (Python `str.upper()`; non-ASCII
case mappings are not modelled). -/
def pyCharUpper (c : Char) : Char :=
  if 'a' ≤ c && c ≤ 'z' then Char.ofNat (c.toNat - 32) else c

/-- ASCII lower-casing of one character (Python `str.lower()`). -/
def pyCharLower (c : Char) : Char :=
  if 'A' ≤ c && c ≤ 'Z' then Char.ofNat (c.toNat + 32) else c

/-- Python `str.upper()` (ASCII). -/
def pyUpperStr (s : String) : String :=
  String.mk (s.data.map pyCharUpper)

/-- Python `str.lower()` (ASCII). -/
def pyLowerStr (s : String) : String :=
  String.mk (s.data.map pyCharLower)

/-- Consume a run of ASCII digits where single underscores may sit between
digits (Python numeric-literal grammar); underscores are dropped from the
returned digit list, the unconsumed remainder is returned alongside. -/
def digitRunAux : List Char → List Char → List Char × List Char
  | acc, [] => (acc, [])
  | acc, c :: rest =>
    if c.isDigit then digitRunAux (acc ++ [c]) rest
    else if c = '_' then
      match rest with
      | d :: rest2 =>
        if d.isDigit then digitRunAux (acc ++ [d]) rest2 else (acc, c :: rest)
      | [] => (acc, [c])
    else (acc, c :: rest)

/-- Parse a leading digit run (must start with a digit). -/
def digitRun (l : List Char) : List Char × List Char :=
  match l with
  | c :: rest => if c.isDigit then digitRunAux [c] rest else ([], l)
  | [] => ([], [])

/-- Decimal value of a digit list. -/
def digitsToNat (ds : List Char) : ℕ :=
  ds.foldl (fun acc c => 10 * acc + (c.toNat - '0'.toNat)) 0

/-- Model of Python `float(text)` on an already stripped, non-empty string:
optional sign, then `inf`/`infinity`/`nan` (case-insensitive) or a decimal
literal with optional fraction and exponent, underscores between digits.
The denoted value is kept exactly (IEEE rounding is not modelled). -/
def pyParseFloatText (chars : List Char) : Option PyFloat :=
  let sgnRest : ℤ × List Char :=
    match chars with
    | '+' :: r => (1, r)
    | '-' :: r => (-1, r)
    | _ => (1, chars)
  let sgn := sgnRest.1
  let rest := sgnRest.2
  let lowered := rest.map pyCharLower
  if lowered = "inf".data || lowered = "infinity".data then
    some (if sgn = 1 then .inf else .neginf)
  else if lowered = "nan".data then some .nan
  else
    let intRun := digitRun rest
    let intDs := intRun.1
    let r1 := intRun.2
    let fracRun : List Char × List Char :=
      match r1 with
      | '.' :: r => digitRun r
      | _ => ([], r1)
    let fracDs := fracRun.1
    let r2 := fracRun.2
    if intDs = [] && fracDs = [] then none
    else
      -- When there is no fractional part the mantissa is the signed integer
      -- value itself; the separate branch is definitionally equal to the
      -- general formula (the fractional summand is 0) and keeps the value
      -- kernel-computable.
      let mant : ℚ :=
        if fracDs = [] then ((sgn * (digitsToNat intDs : ℤ) : ℤ) : ℚ)
        else (sgn : ℚ) * ((digitsToNat intDs : ℚ) +
          (digitsToNat fracDs : ℚ) / (10 : ℚ) ^ fracDs.length)
      match r2 with
      | [] => some (.finite mant)
      | e :: r3 =>
        if e = 'e' || e = 'E' then
          let esgnRest : ℤ × List Char :=
            match r3 with
            | '+' :: r => (1, r)
            | '-' :: r => (-1, r)
            | _ => (1, r3)
          match digitRun esgnRest.2 with
          | (eds, []) =>
            if eds = [] then none
            else some (.finite (mant * (10 : ℚ) ^ (esgnRest.1 * (digitsToNat eds : ℤ))))
          | _ => none
        else none

/-- `_parse_float` (lines 147-156) applied to a Python value
(`None` check, `str(value).strip()`, empty check, `float(text)`).
`str` of a float or int round-trips through `float()` to the same value. -/
def parseFloatVal : Option PyVal → Option PyFloat
  | none => none
  | some .none_ => none
  | some (.float f) => some f
  | some (.int n) => some (.finite (n : ℚ))
  | some (.bool _) => none
  | some (.str s) =>
    let t := pyStripList s.data
    if t = [] then none else pyParseFloatText t
  | some (.list _) => none
  | some (.dict _) => none

/-- Model of Python `int(x)` used by the cache-entry reader: ints and bools
convert, finite floats truncate toward zero, `nan`/`inf` raise (none),
strings parse as optionally signed digit runs, everything else raises. -/
def pyParseIntText (s : String) : Option ℤ :=
  let t := pyStripList s.data
  let sgnRest : ℤ × List Char :=
    match t with
    | '+' :: r => (1, r)
    | '-' :: r => (-1, r)
    | _ => (1, t)
  match digitRun sgnRest.2 with
  | (ds, []) => if ds = [] then none else some (sgnRest.1 * (digitsToNat ds : ℤ))
  | _ => none

/-- Truncation of a rational toward zero, as Python `int(float)`. -/
def ratTruncToInt (q : ℚ) : ℤ :=
  q.num / (q.den : ℤ)

/-- Python `int(x)` on a value ( `none` models the raised `ValueError`/`TypeError`). -/
def pyIntVal : PyVal → Option ℤ
  | .int n => some n
  | .bool b => some (if b then 1 else 0)
  | .float (.finite q) => some (ratTruncToInt q)
  | .float _ => none
  | .str s => pyParseIntText s
  | .none_ => none
  | .list _ => none
  | .dict _ => none

/-- Python `str(x)`.  Only the `str` branch is exercised by the claims;
the textual form of the other variants is approximated. -/
def pyStr : PyVal → String
  | .str s => s
  | .none_ => "None"
  | .bool b => if b then "True" else "False"
  | .int n => toString n
  | .float (.finite q) => toString q
  | .float .inf => "inf"
  | .float .neginf => "-inf"
  | .float .nan => "nan"
  | .list _ => "[...]"
  | .dict _ => "<dict>"

/-- Python truthiness (`bool(x)`).  `nan` and the infinities are truthy. -/
def pyTruthy : PyVal → Bool
  | .none_ => false
  | .bool b => b
  | .int n => decide (n ≠ 0)
  | .float (.finite q) => decide (q ≠ 0)
  | .float _ => true
  | .str s => decide (s ≠ "")
  | .list xs => !xs.isEmpty
  | .dict fs => !fs.isEmpty

/-- Truthiness of an `Optional[str]` (Python `if reason:`). -/
def optStrTruthy : Option String → Bool
  | none => false
  | some s => decide (s ≠ "")

/-- Python `x or default` for an `Optional[str]` (both `None` and `""` fall back). -/
def pyOrStr (v : Option String) (dflt : String) : String :=
  match v with
  | none => dflt
  | some s => if s = "" then dflt else s

/-- Read an optional string field of a cache entry; non-string junk from a
hand-edited cache file is collapsed to `none` (unexercised by the claims). -/
def pyValToOptStr : Option PyVal → Option String
  | some (.str s) => some s
  | _ => none

/-- Read an optional float field of a cache entry; ints coerce numerically. -/
def pyValToOptFloat : Option PyVal → Option PyFloat
  | some (.float f) => some f
  | some (.int n) => some (.finite (n : ℚ))
  | _ => none

/-- Serialize an optional string for the cache (`None` / the string itself). -/
def optStrVal : Option String → PyVal
  | none => .none_
  | some s => .str s

/-- Serialize an optional float for the cache. -/
def optFloatVal : Option PyFloat → PyVal
  | none => .none_
  | some f => .float f

/-- `_is_valid_lat_lng` (lines 159-162). -/
def isValidLatLng (lat lng : Option PyFloat) : Bool :=
  match lat, lng with
  | some la, some ln =>
    pyLe (.finite (-90)) la && pyLe la (.finite 90) &&
      (pyLe (.finite (-180)) ln && pyLe ln (.finite 180))
  | _, _ => false

/-- The `GeocodeResult` dataclass (lines 35-45) minus the unconsumed `raw`
payload; `partMatch` stands for the source's `partial_match`. -/
structure GeocodeResult where
  status : String
  formattedAddress : Option String
  latitude : Option PyFloat
  longitude : Option PyFloat
  resultCount : ℤ
  partMatch : Bool
  locationType : Option String
  errorMessage : Option String
  deriving DecidableEq

/-- `_ambiguous_reason` (lines 266-279). -/
def ambiguousReason (r : GeocodeResult) : Option String :=
  if r.status ≠ "OK" then none
  else if r.resultCount ≠ 1 then
    some ("ambiguous: result_count=" ++ toString r.resultCount)
  else if r.partMatch then some "ambiguous: partial_match=true"
  else if pyUpperStr (pyOrStr r.locationType "") ≠ "ROOFTOP" then
    some ("ambiguous: location_type=" ++ pyOrStr r.locationType "UNKNOWN")
  else none

/-- Response normalization inside `geocode_address` (lines 201-263), applied
to the decoded JSON payload, given as the top-level dict's field list.
(A non-dict payload makes the Python attribute access raise; that case is
covered by the caller-level error outcome, `LookupOutcome.err`.) -/
def parseGeocodeResponse (raw : List (String × PyVal)) : GeocodeResult :=
  let status := pyStr ((lookupAssoc raw "status").getD (.str ""))
  let errorMessage :=
    match lookupAssoc raw "error_message" with
    | some (.str s) => some s
    | _ => none
  let results :=
    match lookupAssoc raw "results" with
    | some (.list xs) => xs
    | _ => []
  let resultCount : ℤ := results.length
  if status ≠ "OK" then
    ⟨status, none, none, none, resultCount, false, none, errorMessage⟩
  else if results.length = 0 then
    ⟨"NO_RESULTS", none, none, none, 0, false, none, errorMessage⟩
  else
    let first :=
      match results.head? with
      | some (.dict fs) => fs
      | _ => []
    let formattedAddress := pyValToOptStr (lookupAssoc first "formatted_address")
    let partMatch := pyTruthy ((lookupAssoc first "partial_match").getD .none_)
    let geomFields :=
      match lookupAssoc first "geometry" with
      | some (.dict g) => some g
      | _ => none
    let locationType :=
      match geomFields with
      | some g =>
        match lookupAssoc g "location_type" with
        | some .none_ => none
        | some v => some (pyStr v)
        | none => none
      | none => none
    let latLng : Option PyFloat × Option PyFloat :=
      match geomFields with
      | some g =>
        match lookupAssoc g "location" with
        | some (.dict loc) =>
          (parseFloatVal (lookupAssoc loc "lat"), parseFloatVal (lookupAssoc loc "lng"))
        | _ => (none, none)
      | none => (none, none)
    ⟨status, formattedAddress, latLng.1, latLng.2, resultCount, partMatch,
      locationType, errorMessage⟩

/-- `CACHE_VERSION` fresh cache value (`{"version": 1, "entries": {}}`). -/
def freshCache : PyVal :=
  .dict [("version", .int 1), ("entries", .dict [])]

/-- Input situations `_load_cache` can face: empty path argument, missing
file, unreadable/unparsable content, or a successfully decoded JSON value. -/
inductive CacheFileInput where
  | noPath
  | absent
  | unreadable
  | parsed (data : PyVal)

/-- Is the value a Python dict? -/
def isDictVal : PyVal → Bool
  | .dict _ => true
  | _ => false

/-- The check `data.get("version") != CACHE_VERSION` (negated): Python
numeric equality identifies `1`, `1.0` and `True`. -/
def cacheVersionOk : Option PyVal → Bool
  | some (.int n) => decide (n = 1)
  | some (.float (.finite q)) => decide (q = 1)
  | some (.bool b) => b
  | _ => false

/-- Is the `entries` field a dict? -/
def entriesIsDict (data : PyVal) : Bool :=
  match pyDictGet data "entries" with
  | some (.dict _) => true
  | _ => false

/-- `_load_cache` (lines 52-70). -/
def loadCache : CacheFileInput → PyVal
  | .noPath => freshCache
  | .absent => freshCache
  | .unreadable => freshCache
  | .parsed data =>
    if !isDictVal data then freshCache
    else if !cacheVersionOk (pyDictGet data "version") then freshCache
    else if !entriesIsDict data then freshCache
    else data

/-- `_geocode_result_to_cache_entry` (lines 84-94). -/
def geocodeResultToCacheEntry (r : GeocodeResult) : PyVal :=
  .dict [("status", .str r.status),
         ("formatted_address", optStrVal r.formattedAddress),
         ("latitude", optFloatVal r.latitude),
         ("longitude", optFloatVal r.longitude),
         ("result_count", .int r.resultCount),
         ("partial_match", .bool r.partMatch),
         ("location_type", optStrVal r.locationType),
         ("error_message", optStrVal r.errorMessage)]

/-- `_cache_entry_to_geocode_result` (lines 97-113): `none` models the
`except` branch — among the conversions applied, only `int(...)` can raise. -/
def cacheEntryToGeocodeResult (e : PyVal) : Option GeocodeResult :=
  match e with
  | .dict fields =>
    match pyIntVal ((lookupAssoc fields "result_count").getD (.int 0)) with
    | none => none
    | some rc =>
      some { status := pyStr ((lookupAssoc fields "status").getD (.str "")),
             formattedAddress := pyValToOptStr (lookupAssoc fields "formatted_address"),
             latitude := pyValToOptFloat (lookupAssoc fields "latitude"),
             longitude := pyValToOptFloat (lookupAssoc fields "longitude"),
             resultCount := rc,
             partMatch := pyTruthy ((lookupAssoc fields "partial_match").getD (.bool false)),
             locationType := pyValToOptStr (lookupAssoc fields "location_type"),
             errorMessage := pyValToOptStr (lookupAssoc fields "error_message") }
  | _ => none

/-- Outcome of one `geocode_address` invocation as observed by the caller:
either a raised transport/parse error or a normalized result. -/
inductive LookupOutcome where
  | err
  | ok (r : GeocodeResult)
  deriving DecidableEq

/-- Mutable state captured by the `geocode_with_cache` closure (lines 412-414). -/
structure CacheState where
  entries : List (String × PyVal)
  hits : ℕ
  misses : ℕ

/-- What one call to `geocode_with_cache` produces: the result (or raised
error), the updated counters/entries, and whether `geocode_address` ran. -/
structure CacheLookupResult where
  outcome : LookupOutcome
  state : CacheState
  wasLive : Bool

/-- Miss path of `geocode_with_cache` (lines 424-428): bump the miss counter,
run the live lookup, store the entry on success when a cache file is set. -/
def geocodeMiss (cacheFileSet : Bool) (st : CacheState) (live : LookupOutcome)
    (key : String) : CacheLookupResult :=
  let st1 : CacheState := { st with misses := st.misses + 1 }
  match live with
  | .err => ⟨.err, st1, true⟩
  | .ok r =>
    ⟨.ok r,
     { st1 with entries :=
        if cacheFileSet then upsertAssoc st1.entries key (geocodeResultToCacheEntry r)
        else st1.entries },
     true⟩

/-- `geocode_with_cache` (lines 416-428). -/
def geocodeWithCache (cacheFileSet : Bool) (st : CacheState) (live : LookupOutcome)
    (address : String) : CacheLookupResult :=
  let key := normalizeAddress address
  match (if cacheFileSet then lookupAssoc st.entries key else none) with
  | some e =>
    match cacheEntryToGeocodeResult e with
    | some r => ⟨.ok r, { st with hits := st.hits + 1 }, false⟩
    | none => geocodeMiss cacheFileSet st live key
  | none => geocodeMiss cacheFileSet st live key

/-- The store step `cache_entries[key] = _geocode_result_to_cache_entry(result)`
with `key = _normalize_address(address)` (lines 418 and 427): the cache `put`. -/
def putCache (st : CacheState) (address : String) (r : GeocodeResult) : CacheState :=
  { st with entries :=
      upsertAssoc st.entries (normalizeAddress address) (geocodeResultToCacheEntry r) }

/-- One CSV row as handed to the loop body: the four resolved cells
(`row.get(col)` yields `None` for a short row). Passthrough columns are
irrelevant to every claim and omitted. -/
structure InputRow where
  idCell : Option String
  addressCell : Option String
  latCell : Option String
  lngCell : Option String
  deriving DecidableEq

/-- Reasons a row is written to the mismatch output. -/
inductive MismatchReason where
  | invalidCoordinates
  | distanceExceedsTolerance
  deriving DecidableEq

/-- Reasons a row is skipped. -/
inductive SkipReason where
  | missingAddress
  | ambiguousResult
  | geocodeFailure
  deriving DecidableEq

/-- Per-row classification.  For a mismatch the record carries the provider
coordinates and the distance cell (`none` renders as the empty string). -/
inductive RowOutcome where
  | matched
  | mismatched (reason : MismatchReason) (googleLat googleLng : Option PyFloat)
      (distanceMeters : Option PyFloat)
  | skipped (reason : SkipReason)
  deriving DecidableEq

/-- Result of the loop body up to (but not including) the distance
computation of line 531: either a finished outcome, or control reaching the
`_haversine_meters` call with the stored values and the provider result. -/
inductive StepResult where
  | outcome (o : RowOutcome)
  | distanceCheck (storedLat storedLng : Option PyFloat) (result : GeocodeResult)

/-- Enrichment of an invalid-coordinate mismatch record with provider
coordinates (lines 481-492): a raised lookup error is swallowed, and the
coordinates are kept only for a valid, unambiguous `"OK"` result. -/
def enrichmentCoords (lookup : LookupOutcome) : Option PyFloat × Option PyFloat :=
  match lookup with
  | .err => (none, none)
  | .ok result =>
    if result.status == "OK" && isValidLatLng result.latitude result.longitude then
      match ambiguousReason result with
      | none => (result.latitude, result.longitude)
      | some _ => (none, none)
    else (none, none)

/-- The per-row decision pipeline of `main` (lines 462-530), with the
outcome of the row's `geocode_with_cache` call supplied as an oracle
(`.err` models a raised exception). -/
def classifyRowPre (row : InputRow) (lookup : LookupOutcome) : StepResult :=
  let address := pyStripStr (row.addressCell.getD "")
  let lat := parseFloatVal (row.latCell.map PyVal.str)
  let lng := parseFloatVal (row.lngCell.map PyVal.str)
  if address = "" then .outcome (.skipped .missingAddress)
  else if !isValidLatLng lat lng then
    .outcome (.mismatched .invalidCoordinates (enrichmentCoords lookup).1
      (enrichmentCoords lookup).2 none)
  else
    match lookup with
    | .err => .outcome (.skipped .geocodeFailure)
    | .ok result =>
      if result.status != "OK" || !isValidLatLng result.latitude result.longitude then
        .outcome (.skipped .geocodeFailure)
      else if optStrTruthy (ambiguousReason result) then
        .outcome (.skipped .ambiguousResult)
      else
        .distanceCheck lat lng result

/-- Control reaches line 544 (the sleep site) exactly when the loop body did
not `continue` earlier, i.e. when the row got to the distance check. -/
def rowReachesDistanceCheck (row : InputRow) (lookup : LookupOutcome) : Bool :=
  match classifyRowPre row lookup with
  | .distanceCheck _ _ _ => true
  | _ => false

/-- Whether the loop body sleeps for this row (lines 544-545):
`args.sleep_ms > 0` and the row reached the end of the body. -/
def rowSleeps (sleepMs : ℤ) (row : InputRow) (lookup : LookupOutcome) : Bool :=
  decide (0 < sleepMs) && rowReachesDistanceCheck row lookup

/-- The per-run counters of `main` (lines 402-409). -/
structure RunCounters where
  totalRows : ℕ := 0
  checkedRows : ℕ := 0
  matched : ℕ := 0
  mismatched : ℕ := 0
  invalidCoordMismatches : ℕ := 0
  skippedMissingAddress : ℕ := 0
  skippedAmbiguous : ℕ := 0
  skippedGeocodeFailure : ℕ := 0
  deriving DecidableEq

/-- Counter increments performed by the loop body for one row's outcome:
`total_rows` always; then exactly one of the five outcome families, with
`checked_rows` bumped for both matched and distance-mismatched rows. -/
def bumpCounters (c : RunCounters) : RowOutcome → RunCounters
  | .matched =>
    { c with totalRows := c.totalRows + 1, checkedRows := c.checkedRows + 1,
             matched := c.matched + 1 }
  | .mismatched .invalidCoordinates _ _ _ =>
    { c with totalRows := c.totalRows + 1, mismatched := c.mismatched + 1,
             invalidCoordMismatches := c.invalidCoordMismatches + 1 }
  | .mismatched .distanceExceedsTolerance _ _ _ =>
    { c with totalRows := c.totalRows + 1, checkedRows := c.checkedRows + 1,
             mismatched := c.mismatched + 1 }
  | .skipped .missingAddress =>
    { c with totalRows := c.totalRows + 1,
             skippedMissingAddress := c.skippedMissingAddress + 1 }
  | .skipped .ambiguousResult =>
    { c with totalRows := c.totalRows + 1,
             skippedAmbiguous := c.skippedAmbiguous + 1 }
  | .skipped .geocodeFailure =>
    { c with totalRows := c.totalRows + 1,
             skippedGeocodeFailure := c.skippedGeocodeFailure + 1 }

/-- Counters after a whole run's sequence of row outcomes. -/
def tallyRun (outcomes : List RowOutcome) : RunCounters :=
  outcomes.foldl bumpCounters {}

/-- The counter-valued fields of the summary dict (lines 561-578). -/
structure RunSummary where
  totalRows : ℕ
  checkedRows : ℕ
  matched : ℕ
  mismatched : ℕ
  invalidCoordMismatches : ℕ
  distanceMismatches : ℤ
  skippedMissingAddress : ℕ
  skippedAmbiguous : ℕ
  skippedGeocodeFailure : ℕ
  accountedRows : ℕ
  deriving DecidableEq

/-- Summary construction (lines 554-578): `distance_mismatches` is the
difference floored at zero, `accounted_rows` the five-way sum. -/
def buildSummary (outcomes : List RowOutcome) : RunSummary :=
  let c := tallyRun outcomes
  let dm0 : ℤ := (c.mismatched : ℤ) - (c.invalidCoordMismatches : ℤ)
  let dm : ℤ := if dm0 < 0 then 0 else dm0
  { totalRows := c.totalRows,
    checkedRows := c.checkedRows,
    matched := c.matched,
    mismatched := c.mismatched,
    invalidCoordMismatches := c.invalidCoordMismatches,
    distanceMismatches := dm,
    skippedMissingAddress := c.skippedMissingAddress,
    skippedAmbiguous := c.skippedAmbiguous,
    skippedGeocodeFailure := c.skippedGeocodeFailure,
    accountedRows := c.checkedRows + c.invalidCoordMismatches +
      c.skippedMissingAddress + c.skippedAmbiguous + c.skippedGeocodeFailure }

/-- State of the input CSV as seen by `main`: the file may be absent (the
`open` raises, exiting the interpreter with status 1), may decode to no
header (`reader.fieldnames is None`), or provides a header row. -/
inductive InputFileState where
  | missing
  | noHeader
  | header (cols : List String)

/-- How the validation prelude of `main` ends: a process exit status, or
control proceeding into the row loop with the four resolved column names
(that path returns 0 at line 591 barring later OS errors). -/
inductive PreludeOutcome where
  | exitCode (n : ℕ)
  | proceed (idCol addressCol latCol lngCol : String)
  deriving DecidableEq

/-- Python falsiness of the credential (`not api_key`): absent or empty. -/
def apiKeyFalsy : Option String → Bool
  | none => true
  | some s => decide (s = "")

/-- `_required_column` (lines 282-294) minus the raise: exact match first,
else the case-insensitive dict built by comprehension, where a later
duplicate overwrites an earlier one (hence the last match wins).
`none` models the raised `SystemExit`. -/
def resolveColumn (fieldnames : List String) (requested : String) : Option String :=
  if requested ∈ fieldnames then some requested
  else (fieldnames.filter (fun n => pyLowerStr n = pyLowerStr requested)).getLast?

/-- The validation prelude of `main` (lines 385-455) down to the dry-run
return.  A `SystemExit` carrying a string (raised by `_required_column`)
makes the interpreter print the message and exit with status 1; the explicit
`return 2` paths exit with status 2 via `raise SystemExit(main())`. -/
def mainPrelude (tolerance : PyFloat) (dryRun : Bool) (apiKey : Option String)
    (input : InputFileState)
    (idColumn addressColumn latColumn lngColumn : String) : PreludeOutcome :=
  if pyLt tolerance (.finite 0) then .exitCode 2
  else if !dryRun && apiKeyFalsy apiKey then .exitCode 2
  else
    match input with
    | .missing => .exitCode 1
    | .noHeader => .exitCode 2
    | .header cols =>
      match resolveColumn cols idColumn with
      | none => .exitCode 1
      | some idc =>
        match resolveColumn cols addressColumn with
        | none => .exitCode 1
        | some ac =>
          match resolveColumn cols latColumn with
          | none => .exitCode 1
          | some lc =>
            match resolveColumn cols lngColumn with
            | none => .exitCode 1
            | some gc =>
              if dryRun then .exitCode 0 else .proceed idc ac lc gc

/-- A fully trustworthy provider result: single, non-partial, rooftop. -/
def rooftopResult : GeocodeResult :=
  ⟨"OK", some "1 Main St, Springfield", some (.finite 40), some (.finite (-74)),
    1, false, some "ROOFTOP", none⟩

/-- An `"OK"` provider result with two candidate results (ambiguous). -/
def twoResultsOk : GeocodeResult :=
  ⟨"OK", some "1 Main St, Springfield", some (.finite 40), some (.finite (-74)),
    2, false, some "ROOFTOP", none⟩

/-- A row with a non-empty address and valid stored coordinates. -/
def validCoordRow : InputRow :=
  ⟨some "7", some "1 Main St", some "40", some "-74"⟩

/-- `math.radians` (degrees to radians). -/
noncomputable def radians (x : ℝ) : ℝ :=
  x * Real.pi / 180

/-- `math.atan2` on the reals, by quadrant. -/
noncomputable def atan2 (y x : ℝ) : ℝ :=
  if 0 < x then Real.arctan (y / x)
  else if x < 0 ∧ 0 ≤ y then Real.arctan (y / x) + Real.pi
  else if x < 0 ∧ y < 0 then Real.arctan (y / x) - Real.pi
  else if x = 0 ∧ 0 < y then Real.pi / 2
  else if x = 0 ∧ y < 0 then -(Real.pi / 2)
  else 0

/-- `_haversine_meters` (lines 165-176) over the reals (the floating-point
evaluation of the same formula is not modelled). -/
noncomputable def haversineMeters (lat1 lon1 lat2 lon2 : ℝ) : ℝ :=
  6371000 *
    (2 * atan2
      (Real.sqrt (Real.sin (radians (lat2 - lat1) / 2) ^ 2 +
        Real.cos (radians lat1) * Real.cos (radians lat2) *
          Real.sin (radians (lon2 - lon1) / 2) ^ 2))
      (Real.sqrt (1 - (Real.sin (radians (lat2 - lat1) / 2) ^ 2 +
        Real.cos (radians lat1) * Real.cos (radians lat2) *
          Real.sin (radians (lon2 - lon1) / 2) ^ 2))))

/-! ### Helper lemmas -/

theorem splitOnWsStep_ne_nil (c : Char) (acc : List (List Char)) :
    splitOnWsStep c acc ≠ [] := by
  unfold splitOnWsStep
  split
  · simp
  · split <;> simp

theorem splitOnWs_ne_nil (l : List Char) : splitOnWs l ≠ [] := by
  cases l with
  | nil => simp [splitOnWs]
  | cons c cs => exact splitOnWsStep_ne_nil c (cs.foldr splitOnWsStep [[]])

theorem splitOnWs_cons (c : Char) (l : List Char) :
    splitOnWs (c :: l) = splitOnWsStep c (splitOnWs l) := rfl

theorem pyWords_cons_space {c : Char} (h : pyIsSpaceChar c = true) (l : List Char) :
    pyWords (c :: l) = pyWords l := by
  simp [pyWords, splitOnWs_cons, splitOnWsStep, h]

theorem pyWords_dropWhile_space (l : List Char) :
    pyWords (l.dropWhile pyIsSpaceChar) = pyWords l := by
  induction l with
  | nil => rfl
  | cons c cs ih =>
    by_cases h : pyIsSpaceChar c = true
    · rw [List.dropWhile_cons_of_pos h, ih, pyWords_cons_space h]
    · rw [List.dropWhile_cons_of_neg h]

theorem foldr_splitOnWsStep_extra (l : List Char) (extra : List (List Char)) :
    l.foldr splitOnWsStep ([] :: extra) = l.foldr splitOnWsStep [[]] ++ extra := by
  induction l with
  | nil => rfl
  | cons c cs ih =>
    rw [List.foldr_cons, List.foldr_cons, ih]
    by_cases h : pyIsSpaceChar c = true
    · simp [splitOnWsStep, h]
    · rcases hcs : cs.foldr splitOnWsStep [[]] with _ | ⟨w, ws⟩
      · exact absurd hcs (splitOnWs_ne_nil cs)
      · simp [splitOnWsStep, h]

theorem foldr_splitOnWsStep_all_space (t : List Char)
    (ht : ∀ c ∈ t, pyIsSpaceChar c = true) :
    t.foldr splitOnWsStep [[]] = List.replicate (t.length + 1) [] := by
  induction t with
  | nil => rfl
  | cons c cs ih =>
    have hc : pyIsSpaceChar c = true := ht c (List.mem_cons_self c cs)
    rw [List.foldr_cons, ih (fun d hd => ht d (List.mem_cons_of_mem c hd))]
    simp [splitOnWsStep, hc, List.replicate_succ]

theorem filter_nonempty_replicate_nil (n : ℕ) :
    (List.replicate n ([] : List Char)).filter (fun w => !w.isEmpty) = [] := by
  induction n with
  | zero => rfl
  | succ m ih => rw [List.replicate_succ, List.filter_cons]; simp [ih]

theorem pyWords_append_space (l t : List Char)
    (ht : ∀ c ∈ t, pyIsSpaceChar c = true) :
    pyWords (l ++ t) = pyWords l := by
  unfold pyWords splitOnWs
  rw [List.foldr_append, foldr_splitOnWsStep_all_space t ht, List.replicate_succ,
    foldr_splitOnWsStep_extra, List.filter_append, filter_nonempty_replicate_nil,
    List.append_nil]

theorem mem_takeWhile_space {c : Char} {l : List Char}
    (h : c ∈ l.takeWhile pyIsSpaceChar) : pyIsSpaceChar c = true := by
  induction l with
  | nil => simp [List.takeWhile] at h
  | cons a as ih =>
    rw [List.takeWhile_cons] at h
    by_cases ha : pyIsSpaceChar a = true
    · rw [if_pos ha] at h
      rcases List.mem_cons.mp h with rfl | h2
      · exact ha
      · exact ih h2
    · rw [if_neg ha] at h; simp at h

theorem pyWords_pyStripList (l : List Char) :
    pyWords (pyStripList l) = pyWords l := by
  unfold pyStripList
  set m := l.dropWhile pyIsSpaceChar with hm
  have hdec : m = (m.reverse.dropWhile pyIsSpaceChar).reverse ++
      (m.reverse.takeWhile pyIsSpaceChar).reverse := by
    conv_lhs => rw [← List.reverse_reverse m,
      ← List.takeWhile_append_dropWhile (p := pyIsSpaceChar) (l := m.reverse)]
    rw [List.reverse_append]
  have hsp : ∀ c ∈ (m.reverse.takeWhile pyIsSpaceChar).reverse, pyIsSpaceChar c = true := by
    intro c hc
    exact mem_takeWhile_space (List.mem_reverse.mp hc)
  calc pyWords (m.reverse.dropWhile pyIsSpaceChar).reverse
      = pyWords ((m.reverse.dropWhile pyIsSpaceChar).reverse ++
          (m.reverse.takeWhile pyIsSpaceChar).reverse) :=
        (pyWords_append_space _ _ hsp).symm
    _ = pyWords m := by rw [← hdec]
    _ = pyWords l := pyWords_dropWhile_space l

theorem normalizeAddress_words (s : String) :
    normalizeAddress s = String.mk (List.intercalate [' '] (pyWords s.data)) := by
  unfold normalizeAddress
  rw [pyWords_pyStripList]

theorem lookupAssoc_upsertAssoc {α : Type} (es : List (String × α)) (k : String) (v : α) :
    lookupAssoc (upsertAssoc es k v) k = some v := by
  induction es with
  | nil => simp [upsertAssoc, lookupAssoc]
  | cons p rest ih =>
    obtain ⟨k', w⟩ := p
    by_cases h : k' = k
    · simp [upsertAssoc, h, lookupAssoc]
    · simp [upsertAssoc, h, lookupAssoc, ih]

theorem cacheEntry_roundtrip (r : GeocodeResult) :
    cacheEntryToGeocodeResult (geocodeResultToCacheEntry r) = some r := by
  obtain ⟨st, fa, la, ln, rc, pm, lt, em⟩ := r
  cases fa <;> cases la <;> cases ln <;> cases lt <;> cases em <;> rfl

/-- Shared core of C1 and C10: a non-empty-address row whose stored
coordinates fail validation is always an invalid-coordinate mismatch with
an empty distance cell, the provider fields given by the enrichment step. -/
theorem classifyRowPre_invalid (row : InputRow) (lookup : LookupOutcome)
    (h1 : pyStripStr (row.addressCell.getD "") ≠ "")
    (h2 : isValidLatLng (parseFloatVal (row.latCell.map PyVal.str))
      (parseFloatVal (row.lngCell.map PyVal.str)) = false) :
    classifyRowPre row lookup = .outcome (.mismatched .invalidCoordinates
      (enrichmentCoords lookup).1 (enrichmentCoords lookup).2 none) := by
  unfold classifyRowPre
  rw [if_neg h1, h2]
  rfl

/-! ### Claim theorems -/

/-- C1: every row with a non-empty address whose stored latitude/longitude
parse to null or fall outside the valid ranges is classified
Mismatched(InvalidCoordinates) regardless of the provider lookup outcome;
a raised lookup is swallowed, leaving blank provider coordinates, and the
distance cell of the mismatch record is always empty. -/
theorem invalidCoordRows_always_mismatched (row : InputRow) (lookup : LookupOutcome)
    (h1 : pyStripStr (row.addressCell.getD "") ≠ "")
    (h2 : isValidLatLng (parseFloatVal (row.latCell.map PyVal.str))
      (parseFloatVal (row.lngCell.map PyVal.str)) = false) :
    classifyRowPre row lookup = .outcome (.mismatched .invalidCoordinates
      (enrichmentCoords lookup).1 (enrichmentCoords lookup).2 none) ∧
    (lookup = .err → classifyRowPre row lookup =
      .outcome (.mismatched .invalidCoordinates none none none)) := by
  have main := classifyRowPre_invalid row lookup h1 h2
  exact ⟨main, fun he => by rw [main, he]; rfl⟩

/-- C1 witness: a concrete row with unparsable latitude text and a failing
lookup is recorded as an invalid-coordinate mismatch with blank provider
coordinates and an empty distance cell. -/
theorem invalidCoordRows_always_mismatched_witness :
    classifyRowPre ⟨some "9", some "1 Main St", some "oops", some "-74"⟩ .err =
      .outcome (.mismatched .invalidCoordinates none none none) :=
  (invalidCoordRows_always_mismatched ⟨some "9", some "1 Main St", some "oops", some "-74"⟩
    .err (by decide) rfl).2 rfl

/-- C2 counterexample: the classifier also returns null for a result whose
status is not `"OK"` (here `"ZERO_RESULTS"`), so "null only when status is
OK and the three conditions hold" is false as stated. -/
theorem ambiguity_claim_counterexample :
    ¬ (∀ r : GeocodeResult, ambiguousReason r = none →
        r.status = "OK" ∧ r.resultCount = 1 ∧ r.partMatch = false ∧
        pyUpperStr (pyOrStr r.locationType "") = "ROOFTOP") := by
  intro h
  have hc := h ⟨"ZERO_RESULTS", none, none, none, 0, false, none, none⟩ rfl
  exact absurd hc.1 (by decide)

/-- C2 amended: the classifier returns null exactly when the status is not
`"OK"` (non-OK results are handled by the caller, not flagged as ambiguous)
or when result_count = 1, partial_match is false and the upper-cased
location_type is `"ROOFTOP"`; when the status is `"OK"` and a condition
fails, the reason names the first failing condition in the priority order
result_count, partial_match, location_type. -/
theorem ambiguousReason_characterization (r : GeocodeResult) :
    (ambiguousReason r = none ↔
      r.status ≠ "OK" ∨
      (r.resultCount = 1 ∧ r.partMatch = false ∧
        pyUpperStr (pyOrStr r.locationType "") = "ROOFTOP")) ∧
    (r.status = "OK" → r.resultCount ≠ 1 →
      ambiguousReason r = some ("ambiguous: result_count=" ++ toString r.resultCount)) ∧
    (r.status = "OK" → r.resultCount = 1 → r.partMatch = true →
      ambiguousReason r = some "ambiguous: partial_match=true") ∧
    (r.status = "OK" → r.resultCount = 1 → r.partMatch = false →
      pyUpperStr (pyOrStr r.locationType "") ≠ "ROOFTOP" →
      ambiguousReason r = some ("ambiguous: location_type=" ++
        pyOrStr r.locationType "UNKNOWN")) := by
  unfold ambiguousReason
  split_ifs with h1 h2 h3 h4 <;> simp_all

/-- C2 witness: a two-result `"OK"` response is flagged with a reason naming
result_count. -/
theorem ambiguousReason_characterization_witness :
    ambiguousReason twoResultsOk =
      some ("ambiguous: result_count=" ++ toString (2 : ℤ)) :=
  (ambiguousReason_characterization twoResultsOk).2.1 rfl (by decide)

/-- C3: an `"OK"` response with an empty results list is downgraded to the
synthetic status `"NO_RESULTS"` (never a plain `"OK"`), and a row with a
non-empty address and valid stored coordinates receiving that result is
classified Skipped(GeocodeFailure). -/
theorem okZeroResults_noResults_and_skipped (raw : List (String × PyVal)) (row : InputRow)
    (hs : lookupAssoc raw "status" = some (.str "OK"))
    (hr : lookupAssoc raw "results" = some (.list []))
    (ha : pyStripStr (row.addressCell.getD "") ≠ "")
    (hv : isValidLatLng (parseFloatVal (row.latCell.map PyVal.str))
      (parseFloatVal (row.lngCell.map PyVal.str)) = true) :
    (parseGeocodeResponse raw).status = "NO_RESULTS" ∧
    (parseGeocodeResponse raw).status ≠ "OK" ∧
    classifyRowPre row (.ok (parseGeocodeResponse raw)) =
      .outcome (.skipped .geocodeFailure) := by
  have h1 : (parseGeocodeResponse raw).status = "NO_RESULTS" := by
    simp [parseGeocodeResponse, hs, hr, pyStr]
  refine ⟨h1, by rw [h1]; decide, ?_⟩
  unfold classifyRowPre
  rw [if_neg ha, hv]
  simp [h1]

/-- C3 witness: the concrete payload with status `"OK"` and no results gives
`"NO_RESULTS"`, and a valid row receiving it is skipped as a geocode failure. -/
theorem okZeroResults_noResults_and_skipped_witness :
    (parseGeocodeResponse [("status", .str "OK"), ("results", .list [])]).status =
      "NO_RESULTS" ∧
    classifyRowPre validCoordRow
      (.ok (parseGeocodeResponse [("status", .str "OK"), ("results", .list [])])) =
      .outcome (.skipped .geocodeFailure) := by
  have h := okZeroResults_noResults_and_skipped
    [("status", .str "OK"), ("results", .list [])] validCoordRow rfl rfl (by decide) rfl
  exact ⟨h.1, h.2.2⟩

/-- C4: for every sequence of row outcomes the summary satisfies
accounted_rows = checked_rows + invalid_coord_mismatches +
skipped_missing_address + skipped_ambiguous + skipped_geocode_failure, and
distance_mismatches = max(0, mismatched - invalid_coord_mismatches). -/
theorem summary_reconciliation (outcomes : List RowOutcome) :
    (buildSummary outcomes).accountedRows =
      (buildSummary outcomes).checkedRows +
      (buildSummary outcomes).invalidCoordMismatches +
      (buildSummary outcomes).skippedMissingAddress +
      (buildSummary outcomes).skippedAmbiguous +
      (buildSummary outcomes).skippedGeocodeFailure ∧
    (buildSummary outcomes).distanceMismatches =
      max 0 (((buildSummary outcomes).mismatched : ℤ) -
        ((buildSummary outcomes).invalidCoordMismatches : ℤ)) := by
  constructor
  · rfl
  · simp only [buildSummary]
    split_ifs with h
    · exact (max_eq_left h.le).symm
    · exact (max_eq_right (not_lt.mp h)).symm

/-- C5 counterexample: with a valid tolerance, a credential present and a
header row, a missing required column (`id` here) makes `_required_column`
raise `SystemExit` with a message string, which terminates the process with
status 1, not the claimed 2. -/
theorem missingColumn_exit_code_counterexample :
    mainPrelude (.finite 0) false (some "key")
      (.header ["address", "latitude", "longitude"])
      "id" "address" "latitude" "longitude" = .exitCode 1 ∧
    PreludeOutcome.exitCode 1 ≠ PreludeOutcome.exitCode 2 :=
  ⟨rfl, by decide⟩

/-- C5 amended: the process exits 0 on success (dry run shown) and 2 for
negative tolerance, a CSV with no header row, and a missing credential when
network access is required; a required column absent from the header exits
with status 1 (a `SystemExit` carrying a message string). -/
theorem exit_codes_amended (tol : PyFloat) (dryRun : Bool) (apiKey : Option String)
    (input : InputFileState) (idCol addrCol latCol lngCol : String) :
    (pyLt tol (.finite 0) = true →
      mainPrelude tol dryRun apiKey input idCol addrCol latCol lngCol = .exitCode 2) ∧
    (pyLt tol (.finite 0) = false → dryRun = false → apiKeyFalsy apiKey = true →
      mainPrelude tol dryRun apiKey input idCol addrCol latCol lngCol = .exitCode 2) ∧
    (pyLt tol (.finite 0) = false → (!dryRun && apiKeyFalsy apiKey) = false →
      input = .noHeader →
      mainPrelude tol dryRun apiKey input idCol addrCol latCol lngCol = .exitCode 2) ∧
    (∀ cols, pyLt tol (.finite 0) = false → (!dryRun && apiKeyFalsy apiKey) = false →
      input = .header cols →
      (resolveColumn cols idCol = none ∨ resolveColumn cols addrCol = none ∨
        resolveColumn cols latCol = none ∨ resolveColumn cols lngCol = none) →
      mainPrelude tol dryRun apiKey input idCol addrCol latCol lngCol = .exitCode 1) ∧
    (∀ cols, pyLt tol (.finite 0) = false → dryRun = true → input = .header cols →
      (resolveColumn cols idCol).isSome = true →
      (resolveColumn cols addrCol).isSome = true →
      (resolveColumn cols latCol).isSome = true →
      (resolveColumn cols lngCol).isSome = true →
      mainPrelude tol dryRun apiKey input idCol addrCol latCol lngCol = .exitCode 0) := by
  refine ⟨?_, ?_, ?_, ?_, ?_⟩
  · intro h
    simp [mainPrelude, h]
  · intro h1 h2 h3
    subst h2
    simp [mainPrelude, h1, h3]
  · intro h1 h2 h3
    subst h3
    simp [mainPrelude, h1, h2]
  · intro cols h1 h2 h3 h4
    subst h3
    simp only [mainPrelude, h1, h2, Bool.false_eq_true, if_false]
    cases hi : resolveColumn cols idCol with
    | none => rfl
    | some idc =>
      cases hb : resolveColumn cols addrCol with
      | none => rfl
      | some ac =>
        cases hc : resolveColumn cols latCol with
        | none => rfl
        | some lc =>
          cases hd : resolveColumn cols lngCol with
          | none => rfl
          | some gc => simp_all
  · intro cols h1 h2 h3 h4 h5 h6 h7
    subst h2
    subst h3
    obtain ⟨idc, hi⟩ := Option.isSome_iff_exists.mp h4
    obtain ⟨ac, hb⟩ := Option.isSome_iff_exists.mp h5
    obtain ⟨lc, hc⟩ := Option.isSome_iff_exists.mp h6
    obtain ⟨gc, hd⟩ := Option.isSome_iff_exists.mp h7
    simp [mainPrelude, h1, hi, hb, hc, hd]

/-- C5 witness: each amended case at a concrete configuration — negative
tolerance exits 2, missing credential exits 2, missing header exits 2,
missing required column exits 1, successful dry run exits 0. -/
theorem exit_codes_amended_witness :
    mainPrelude (.finite (-1)) false (some "k")
      (.header ["id", "address", "latitude", "longitude"])
      "id" "address" "latitude" "longitude" = .exitCode 2 ∧
    mainPrelude (.finite 5) false none
      (.header ["id", "address", "latitude", "longitude"])
      "id" "address" "latitude" "longitude" = .exitCode 2 ∧
    mainPrelude (.finite 5) false (some "k") .noHeader
      "id" "address" "latitude" "longitude" = .exitCode 2 ∧
    mainPrelude (.finite 5) false (some "k")
      (.header ["address", "latitude", "longitude"])
      "id" "address" "latitude" "longitude" = .exitCode 1 ∧
    mainPrelude (.finite 5) true none
      (.header ["ID", "address", "latitude", "longitude"])
      "id" "address" "latitude" "longitude" = .exitCode 0 :=
  ⟨(exit_codes_amended (.finite (-1)) false (some "k")
      (.header ["id", "address", "latitude", "longitude"])
      "id" "address" "latitude" "longitude").1 rfl,
   (exit_codes_amended (.finite 5) false none
      (.header ["id", "address", "latitude", "longitude"])
      "id" "address" "latitude" "longitude").2.1 rfl rfl rfl,
   (exit_codes_amended (.finite 5) false (some "k") .noHeader
      "id" "address" "latitude" "longitude").2.2.1 rfl rfl rfl,
   (exit_codes_amended (.finite 5) false (some "k")
      (.header ["address", "latitude", "longitude"])
      "id" "address" "latitude" "longitude").2.2.2.1 _ rfl rfl rfl (Or.inl rfl),
   (exit_codes_amended (.finite 5) true none
      (.header ["ID", "address", "latitude", "longitude"])
      "id" "address" "latitude" "longitude").2.2.2.2 _ rfl rfl rfl rfl rfl rfl rfl⟩

/-- C6 counterexample: a cache-hit lookup (no live call) for a row that
reaches the distance check is followed by the delay, and a live `"OK"`
lookup whose result is ambiguous is not — so the delay is neither "only
after live lookups" nor "after every successful live lookup". -/
theorem sleep_claim_counterexample :
    (geocodeWithCache true (putCache ⟨[], 0, 0⟩ "1 Main St" rooftopResult)
      .err "1 Main St").wasLive = false ∧
    (geocodeWithCache true (putCache ⟨[], 0, 0⟩ "1 Main St" rooftopResult)
      .err "1 Main St").outcome = .ok rooftopResult ∧
    rowSleeps 100 validCoordRow (.ok rooftopResult) = true ∧
    rowSleeps 100 validCoordRow (.ok twoResultsOk) = false :=
  ⟨rfl, rfl, rfl, rfl⟩

/-- C6 amended: with a positive configured delay, the delay is applied
exactly after the rows that reach the distance-comparison stage (those
classified Matched or Mismatched(DistanceExceedsTolerance)), whether the
result came from the cache or a live call; rows classified earlier never
sleep even when a live lookup occurred for them. -/
theorem sleep_exactly_at_distance_check (sleepMs : ℤ) (row : InputRow)
    (lookup : LookupOutcome) :
    rowSleeps sleepMs row lookup = true ↔
      (0 < sleepMs ∧ ∃ la ln r, classifyRowPre row lookup = .distanceCheck la ln r) := by
  unfold rowSleeps rowReachesDistanceCheck
  cases h : classifyRowPre row lookup <;> simp [h]

/-- C6 witness: applying the amended characterization at a concrete
positive delay and a row that reaches the distance check. -/
theorem sleep_exactly_at_distance_check_witness :
    rowSleeps 100 validCoordRow (.ok rooftopResult) = true :=
  (sleep_exactly_at_distance_check 100 validCoordRow (.ok rooftopResult)).mpr
    ⟨by decide, _, _, _, rfl⟩

/-- C7: storing a result under an address and looking it up again with any
whitespace-variant of that address (same whitespace-separated words) is a
cache hit: the very result comes back, no live call happens, the hit
counter increments and the miss counter is unchanged; and the key
normalization is exactly "split into whitespace-separated words and re-join
with single spaces" (collapsing runs and trimming the ends). -/
theorem cache_put_get_roundtrip :
    (∀ (st : CacheState) (addr addr2 : String) (r : GeocodeResult)
      (live : LookupOutcome),
      pyWords addr.data = pyWords addr2.data →
      geocodeWithCache true (putCache st addr r) live addr2 =
        ⟨.ok r, ⟨(putCache st addr r).entries, st.hits + 1, st.misses⟩, false⟩) ∧
    (∀ s : String,
      normalizeAddress s = String.mk (List.intercalate [' '] (pyWords s.data))) := by
  constructor
  · intro st addr addr2 r live h
    have hkey : normalizeAddress addr2 = normalizeAddress addr := by
      rw [normalizeAddress_words, normalizeAddress_words, h]
    show (match (if true then lookupAssoc (putCache st addr r).entries
        (normalizeAddress addr2) else none) with
      | some e =>
        match cacheEntryToGeocodeResult e with
        | some res => CacheLookupResult.mk (.ok res)
            { putCache st addr r with hits := (putCache st addr r).hits + 1 } false
        | none => geocodeMiss true (putCache st addr r) live (normalizeAddress addr2)
      | none => geocodeMiss true (putCache st addr r) live (normalizeAddress addr2)) = _
    rw [if_pos rfl, hkey]
    have hput : (putCache st addr r).entries =
        upsertAssoc st.entries (normalizeAddress addr) (geocodeResultToCacheEntry r) := rfl
    rw [hput, lookupAssoc_upsertAssoc]
    simp [cacheEntry_roundtrip, putCache]
  · exact normalizeAddress_words

/-- C7 witness: put under `"1  Main   St"`, get with `" 1 Main St "`: the
stored rooftop result returns from the cache, hits go 3 to 4, misses stay 4. -/
theorem cache_put_get_roundtrip_witness :
    geocodeWithCache true (putCache ⟨[], 3, 4⟩ "1  Main   St" rooftopResult)
      .err " 1 Main St " =
      ⟨.ok rooftopResult,
       ⟨(putCache ⟨[], 3, 4⟩ "1  Main   St" rooftopResult).entries, 4, 4⟩, false⟩ :=
  cache_put_get_roundtrip.1 ⟨[], 3, 4⟩ "1  Main   St" " 1 Main St " rooftopResult .err rfl

/-- C8: every structurally problematic cache-load input — no path, absent
file, unreadable/unparsable content, non-dict top level, wrong version, or
non-dict entries — yields the fresh empty cache carrying the current
version; the loader is a total function, so no input raises. -/
theorem loadCache_structural_problems (data : PyVal) :
    loadCache .noPath = freshCache ∧
    loadCache .absent = freshCache ∧
    loadCache .unreadable = freshCache ∧
    (isDictVal data = false → loadCache (.parsed data) = freshCache) ∧
    (cacheVersionOk (pyDictGet data "version") = false →
      loadCache (.parsed data) = freshCache) ∧
    (entriesIsDict data = false → loadCache (.parsed data) = freshCache) ∧
    pyDictGet freshCache "version" = some (.int 1) ∧
    pyDictGet freshCache "entries" = some (.dict []) := by
  refine ⟨rfl, rfl, rfl, ?_, ?_, ?_, rfl, rfl⟩
  · intro h
    simp [loadCache, h]
  · intro h
    by_cases hd : isDictVal data <;> simp [loadCache, h, hd]
  · intro h
    by_cases hd : isDictVal data
    · by_cases hv : cacheVersionOk (pyDictGet data "version") <;>
        simp [loadCache, h, hd, hv]
    · simp [loadCache, hd]

/-- C8 witness: a list payload, a wrong-version dict and a dict whose
entries field is a list all load as the fresh cache, as does a missing file. -/
theorem loadCache_structural_problems_witness :
    loadCache (.parsed (.list [])) = freshCache ∧
    loadCache (.parsed (.dict [("version", .int 2), ("entries", .dict [])])) =
      freshCache ∧
    loadCache (.parsed (.dict [("version", .int 1), ("entries", .list [])])) =
      freshCache ∧
    loadCache .absent = freshCache :=
  ⟨(loadCache_structural_problems (.list [])).2.2.2.1 rfl,
   (loadCache_structural_problems
      (.dict [("version", .int 2), ("entries", .dict [])])).2.2.2.2.1 rfl,
   (loadCache_structural_problems
      (.dict [("version", .int 1), ("entries", .list [])])).2.2.2.2.2.1 rfl,
   (loadCache_structural_problems (.list [])).2.1⟩

/-- C9: the haversine distance is symmetric in its two coordinate pairs and
zero on identical pairs (proved for all real inputs, hence in particular
for all valid coordinate pairs). -/
theorem haversine_symm_self :
    (∀ lat1 lon1 lat2 lon2 : ℝ,
      haversineMeters lat1 lon1 lat2 lon2 = haversineMeters lat2 lon2 lat1 lon1) ∧
    (∀ lat lon : ℝ, haversineMeters lat lon lat lon = 0) := by
  have hsin : ∀ x y : ℝ,
      Real.sin (radians (x - y) / 2) ^ 2 = Real.sin (radians (y - x) / 2) ^ 2 := by
    intro x y
    have h : radians (x - y) = -(radians (y - x)) := by unfold radians; ring
    rw [h, neg_div, Real.sin_neg]
    ring
  constructor
  · intro lat1 lon1 lat2 lon2
    unfold haversineMeters
    rw [hsin lat2 lat1, hsin lon2 lon1,
      mul_comm (Real.cos (radians lat1)) (Real.cos (radians lat2))]
  · intro lat lon
    unfold haversineMeters
    have h0 : radians (lat - lat) = 0 := by unfold radians; ring
    have h1 : radians (lon - lon) = 0 := by unfold radians; ring
    rw [h0, h1, zero_div, Real.sin_zero]
    norm_num
    norm_num [atan2, Real.arctan_zero]

/-- C10: `_parse_float` is total (returns a float or null on every value,
never raising); non-finite numeric text such as `"nan"` or `"inf"` parses
to a float which then fails the latitude/longitude range validation, so a
row with such a latitude cell and a non-empty address is classified
Mismatched(InvalidCoordinates). -/
theorem parseFloat_total_and_nonfinite_invalid :
    (∀ v : Option PyVal, parseFloatVal v = none ∨ ∃ f, parseFloatVal v = some f) ∧
    parseFloatVal (some (.str "nan")) = some .nan ∧
    parseFloatVal (some (.str "inf")) = some .inf ∧
    (∀ lng, isValidLatLng (some .nan) lng = false) ∧
    (∀ lng, isValidLatLng (some .inf) lng = false) ∧
    (∀ (row : InputRow) (lookup : LookupOutcome),
      row.latCell = some "nan" →
      pyStripStr (row.addressCell.getD "") ≠ "" →
      classifyRowPre row lookup = .outcome (.mismatched .invalidCoordinates
        (enrichmentCoords lookup).1 (enrichmentCoords lookup).2 none)) := by
  have hnan : ∀ o : Option PyFloat, isValidLatLng (some .nan) o = false := by
    intro o
    cases o <;> rfl
  refine ⟨?_, rfl, rfl, hnan, ?_, ?_⟩
  · intro v
    cases h : parseFloatVal v with
    | none => exact Or.inl rfl
    | some f => exact Or.inr ⟨f, rfl⟩
  · intro lng
    cases lng <;> rfl
  · intro row lookup hc ha
    apply classifyRowPre_invalid row lookup ha
    rw [hc]
    exact hnan (parseFloatVal (row.lngCell.map PyVal.str))

/-- C10 witness: a concrete row whose latitude cell is `"nan"` is recorded
as an invalid-coordinate mismatch. -/
theorem parseFloat_total_and_nonfinite_invalid_witness :
    classifyRowPre ⟨some "2", some "5 Elm St", some "nan", some "-74"⟩ .err =
      .outcome (.mismatched .invalidCoordinates none none none) :=
  parseFloat_total_and_nonfinite_invalid.2.2.2.2.2
    ⟨some "2", some "5 Elm St", some "nan", some "-74"⟩ .err rfl (by decide)

end GeocodeCheck
